import Mathlib

/-!
Shallow embedding of the argument-compiler logic of the ffmpeg-tools
repository: five form handlers (resolution-video, resize-image, speed,
convert, compress, plus the unified resize) each translate user-chosen
options into an ffmpeg argument vector and an output path.  The pure
argument-building core of each handleSubmit is embedded as a Lean
function; path decomposition follows what dirname/basename/extname
produce on the input path, and JavaScript string interpolation of
parsed numbers is modelled by a decimal rendering on rationals.
-/

/-- A source path as decomposed by dirname/basename/extname:
dir is dirname(p), base is basename(p, extname(p)), ext is extname(p)
(including its leading dot, or empty). -/
structure SrcPath where
  dir : String
  base : String
  ext : String
deriving DecidableEq, Repr

/-- The string form of the input path, as join(dir, base + ext) rebuilds it. -/
def SrcPath.str (p : SrcPath) : String := p.dir ++ "/" ++ (p.base ++ p.ext)

/-- An output path produced by join(dirname(inputPath), name). -/
structure OutPath where
  dir : String
  name : String
deriving DecidableEq, Repr

/-- The string form of the output path. -/
def OutPath.str (o : OutPath) : String := o.dir ++ "/" ++ o.name

/-- The output of one handler: the ffmpeg argument vector and the output path. -/
structure CompiledJob where
  argv : List String
  outputPath : OutPath
deriving DecidableEq, Repr

/-- Media kind detected by matching the input extension against fixed sets. -/
inductive MediaKind where
  | video
  | audio
  | image
deriving DecidableEq, Repr

/-- Digits of the decimal expansion of r / d, stopping when the remainder
vanishes and capped by the fuel (JavaScript number printing is exact on the
terminating decimals the forms use; the cap only matters beyond them). -/
def decDigits : Nat → Nat → Nat → List Nat
  | 0, _, _ => []
  | _, 0, _ => []
  | fuel + 1, r, d => ((r * 10) / d) :: decDigits fuel ((r * 10) % d) d

/-- Render a list of decimal digits as characters. -/
def digitsStr (l : List Nat) : String := ⟨l.map (fun n => Char.ofNat (48 + n))⟩

/-- Decimal rendering of a rational, modelling JavaScript template
interpolation of a parsed number: optional sign, integer part, then the
fractional digits with no trailing zeros. -/
def jsShow (q : ℚ) : String :=
  let n := q.num.natAbs
  let d := q.den
  let intPart := n / d
  let frac := decDigits 20 (n % d) d
  (if q.num < 0 then "-" else "") ++ toString intPart ++
    (if frac.isEmpty then "" else "." ++ digitsStr frac)

/-- Character class kept by the replace regex of the unified resize form:
ASCII letters, digits, dot and hyphen. -/
def isSafeChar (c : Char) : Bool :=
  let n := c.toNat
  (decide (97 ≤ n) && decide (n ≤ 122)) ||
  (decide (65 ≤ n) && decide (n ≤ 90)) ||
  (decide (48 ≤ n) && decide (n ≤ 57)) ||
  decide (n = 46) || decide (n = 45)

/-- resolution.replace of every character outside [a-zA-Z0-9.-] by nothing. -/
def sanitizeResolution (s : String) : String := ⟨s.data.filter (fun c => isSafeChar c)⟩

namespace ResolutionVideo

/-- Pure core of handleSubmit in the resolution-video form: build the scale
filter, the preset suffix, the output path and the argument vector. -/
def handleSubmit (p : SrcPath) (width height : String) (keepAspect : Bool)
    (preset filt : String) (keepAudioBitrate : Bool) : CompiledJob :=
  let resolution := if keepAspect then width ++ "p" else width ++ "x" ++ height
  let presetSuffix := if preset ≠ "medium" then "." ++ preset else ""
  let out : OutPath := ⟨p.dir, p.base ++ "." ++ resolution ++ presetSuffix ++ p.ext⟩
  let scaleFilter :=
    if keepAspect then "scale=" ++ width ++ ":-2:flags=" ++ filt
    else "scale=" ++ width ++ ":" ++ height ++ ":flags=" ++ filt
  let mid := ["-vf", scaleFilter, "-preset", preset]
    ++ (if keepAudioBitrate then ["-c:a", "copy"] else [])
  ⟨["-i", p.str] ++ mid ++ ["-y", out.str], out⟩

end ResolutionVideo

namespace ResizeImage

/-- Pure core of handleSubmit in the resize-image form; quality is the raw
text-field value, the empty string standing for the absent (falsy) value. -/
def handleSubmit (p : SrcPath) (width height : String) (keepAspect : Bool)
    (quality filt : String) : CompiledJob :=
  let resolution := if keepAspect then width ++ "w" else width ++ "x" ++ height
  let qualitySuffix := if quality ≠ "" then ".q" ++ quality else ""
  let out : OutPath := ⟨p.dir, p.base ++ "." ++ resolution ++ qualitySuffix ++ p.ext⟩
  let scaleFilter :=
    if keepAspect then "scale=" ++ width ++ ":-1:flags=" ++ filt
    else "scale=" ++ width ++ ":" ++ height ++ ":flags=" ++ filt
  let mid := ["-vf", scaleFilter] ++ (if quality ≠ "" then ["-q:v", quality] else [])
  ⟨["-i", p.str] ++ mid ++ ["-y", out.str], out⟩

end ResizeImage

/-- The fileType dropdown of the unified resize form. -/
inductive ResizeKind where
  | image
  | video
deriving DecidableEq, Repr

/-- JavaScript template interpolation of a possibly-undefined string. -/
def optStr : Option String → String
  | some s => s
  | none => "undefined"

namespace Resize

/-- Pure core of handleSubmit in the unified resize form.  The video branch
always uses the aspect-maintained scale spec; the image branch uses the
explicit width-by-height spec only when a height is given and the
keep-aspect flag is off.  The resolution token is sanitized before the
output name is assembled. -/
def handleSubmit (p : SrcPath) (width height : String) (keepAspect : Bool)
    (filt : String) (kind : ResizeKind) (quality : String)
    (preset : Option String) (keepAudioBitrate : Bool) : CompiledJob :=
  let resolutionFilter : String × String :=
    match kind with
    | .video => (width ++ "p", "scale=" ++ width ++ ":-2:flags=" ++ filt)
    | .image =>
      if height ≠ "" ∧ ¬ keepAspect then
        (width ++ "x" ++ height, "scale=" ++ width ++ ":" ++ height ++ ":flags=" ++ filt)
      else
        (width ++ "w", "scale=" ++ width ++ ":-1:flags=" ++ filt)
  let resolution := resolutionFilter.1
  let scaleFilter := resolutionFilter.2
  let qualitySuffix := if kind = .image ∧ quality ≠ "" then ".q" ++ quality else ""
  let presetSuffix :=
    if kind = .video ∧ preset ≠ some "medium" then "." ++ optStr preset else ""
  let sanitized := sanitizeResolution resolution
  let out : OutPath := ⟨p.dir, p.base ++ "." ++ sanitized ++ qualitySuffix ++ presetSuffix ++ p.ext⟩
  let mid := ["-vf", scaleFilter] ++
    (if kind = .image ∧ quality ≠ "" then ["-q:v", quality]
     else if kind = .video then
       ["-preset", preset.getD "medium"] ++
         (if keepAudioBitrate then ["-c:a", "copy"] else [])
     else [])
  ⟨["-i", p.str] ++ mid ++ ["-y", out.str], out⟩

end Resize

namespace Speed

/-- Pure core of handleSubmit in the speed form; speed and the optional
custom audio speed are the parseFloat results of the form values, and a
null file type falls into the audio branch of the conditional. -/
def handleSubmit (fileType : Option MediaKind) (p : SrcPath) (speed : ℚ)
    (customAudioSpeed : Option ℚ) (maintainPitch : Bool) : CompiledJob :=
  if fileType = some MediaKind.video then
    let audioSpeed := customAudioSpeed.getD speed
    let speedSuffix :=
      jsShow speed ++ "x"
        ++ (if audioSpeed ≠ speed then ".a" ++ jsShow audioSpeed ++ "x" else "")
        ++ (if maintainPitch then ".pitch" else "")
    let out : OutPath := ⟨p.dir, p.base ++ "." ++ speedSuffix ++ p.ext⟩
    let pts := 1 / speed
    let videoFilter := "setpts=" ++ jsShow pts ++ "*PTS"
    let audioFilter :=
      if maintainPitch then
        "asetrate=44100*" ++ jsShow audioSpeed ++ ",aresample=44100,atempo=1"
      else
        "atempo=" ++ jsShow audioSpeed
    ⟨["-i", p.str] ++ ["-filter:v", videoFilter, "-filter:a", audioFilter] ++ ["-y", out.str], out⟩
  else
    let speedSuffix := jsShow speed ++ "x"
    let out : OutPath := ⟨p.dir, p.base ++ "." ++ speedSuffix ++ p.ext⟩
    ⟨["-i", p.str] ++ ["-filter:a", "atempo=" ++ jsShow speed] ++ ["-y", out.str], out⟩

end Speed

namespace Convert

/-- Form values of the convert form; the empty string models an absent
(falsy) codec or quality value. -/
structure FormValues where
  format : String
  codec : String
  quality : String
  maintainQuality : Bool
deriving DecidableEq, Repr

/-- JavaScript s1 or-else s2 on strings: the left value unless it is falsy. -/
def orElse (s dflt : String) : String := if s = "" then dflt else s

/-- Pure core of handleSubmit in the convert form: kind-specific flags and
name suffixes, then the output path with the target format extension.  A
null file type adds nothing kind-specific and falls through to the final
argument-vector assembly. -/
def handleSubmit (fileType : Option MediaKind) (p : SrcPath) (v : FormValues) : CompiledJob :=
  let midName : List String × String :=
    match fileType with
    | some MediaKind.video =>
      if v.codec = "libvpx-vp9" then
        let a := ["-c:v", "libvpx-vp9", "-b:v", "0"]
        if !v.maintainQuality then
          (a ++ ["-crf", orElse v.quality "30", "-row-mt", "1"] ++ ["-c:a", "libopus"],
           "." ++ v.codec ++ ".q" ++ orElse v.quality "30")
        else
          (a ++ ["-crf", "0", "-row-mt", "1", "-cpu-used", "0"] ++ ["-c:a", "libopus"],
           "." ++ v.codec ++ ".lossless")
      else if v.codec ≠ "" ∧ v.codec ≠ "copy" then
        let a := ["-c:v", v.codec]
        let n := "." ++ v.codec
        let step : List String × String :=
          if !v.maintainQuality then
            if v.codec = "libx264" ∨ v.codec = "libx265" then
              (["-crf", orElse v.quality "23"], ".q" ++ orElse v.quality "23")
            else ([], "")
          else
            if v.codec = "libx264" ∨ v.codec = "libx265" then
              (["-crf", "0", "-preset", "veryslow"], ".lossless")
            else ([], "")
        (a ++ step.1 ++ ["-c:a", "copy"], n ++ step.2)
      else
        (["-c:v", "copy", "-c:a", "copy"], "")
    | some MediaKind.audio =>
      if !v.maintainQuality then
        if v.quality ≠ "" then
          (["-b:a", v.quality ++ "k"], "." ++ v.quality ++ "k")
        else ([], "")
      else
        (["-c:a", "flac", "-compression_level", "12"], ".lossless")
    | some MediaKind.image =>
      if !v.maintainQuality then
        if v.quality ≠ "" then
          (["-q:v", v.quality], ".q" ++ v.quality)
        else ([], "")
      else
        (["-q:v", "1"], ".max")
    | none => ([], "")
  let out : OutPath := ⟨p.dir, p.base ++ midName.2 ++ "." ++ v.format⟩
  ⟨["-i", p.str] ++ midName.1 ++ ["-y", out.str], out⟩

end Convert

/-- The compression-level dropdown of the compress form. -/
inductive CompressionPreset where
  | lossless
  | high
  | medium
  | low
  | veryLow
deriving DecidableEq, Repr

namespace Compress

/-- The fixed per-media-kind quality preset table of the compress form. -/
def QUALITY_PRESETS (k : MediaKind) (preset : CompressionPreset) : String :=
  match k, preset with
  | .video, .lossless => "0"
  | .video, .high => "18"
  | .video, .medium => "23"
  | .video, .low => "28"
  | .video, .veryLow => "33"
  | .audio, .lossless => "320"
  | .audio, .high => "256"
  | .audio, .medium => "192"
  | .audio, .low => "128"
  | .audio, .veryLow => "96"
  | .image, .lossless => "2"
  | .image, .high => "5"
  | .image, .medium => "10"
  | .image, .low => "15"
  | .image, .veryLow => "20"

/-- Pure core of handleSubmit in the compress form.  A nonempty custom
quality short-circuits the preset table; with an empty quality and a null
file type, indexing the table throws (a TypeError in the source), and a
null file type reaching the switch hits the throwing default branch. -/
def handleSubmit (fileType : Option MediaKind) (p : SrcPath) (quality : String)
    (preset : CompressionPreset) : Except String CompiledJob :=
  let qualityValueE : Except String String :=
    if quality ≠ "" then Except.ok quality
    else
      match fileType with
      | some k => Except.ok (QUALITY_PRESETS k preset)
      | none => Except.error "TypeError: Cannot read properties of undefined"
  match qualityValueE with
  | Except.error e => Except.error e
  | Except.ok qualityValue =>
    match fileType with
    | some MediaKind.video =>
      let out : OutPath := ⟨p.dir, p.base ++ ".crf" ++ qualityValue ++ p.ext⟩
      Except.ok ⟨["-i", p.str] ++ ["-crf", qualityValue, "-preset", "medium"] ++ ["-y", out.str], out⟩
    | some MediaKind.audio =>
      let out : OutPath := ⟨p.dir, p.base ++ "." ++ qualityValue ++ "kbps" ++ p.ext⟩
      Except.ok ⟨["-i", p.str] ++ ["-b:a", qualityValue ++ "k"] ++ ["-y", out.str], out⟩
    | some MediaKind.image =>
      let out : OutPath := ⟨p.dir, p.base ++ ".q" ++ qualityValue ++ p.ext⟩
      Except.ok ⟨["-i", p.str] ++ ["-q:v", qualityValue] ++ ["-y", out.str], out⟩
    | none => Except.error "Unsupported file type"

end Compress

/-- The operation variants with their option payloads, one per form. -/
inductive Operation where
  | rescaleVideo (width height : String) (keepAspect : Bool)
      (preset filt : String) (keepAudioBitrate : Bool)
  | rescaleImage (width height : String) (keepAspect : Bool) (quality filt : String)
  | resizeUnified (width height : String) (keepAspect : Bool) (filt : String)
      (kind : ResizeKind) (quality : String) (preset : Option String)
      (keepAudioBitrate : Bool)
  | changeSpeed (speed : ℚ) (customAudioSpeed : Option ℚ) (maintainPitch : Bool)
  | convert (v : Convert.FormValues)
  | compress (quality : String) (preset : CompressionPreset)
deriving DecidableEq, Repr

/-- A submitted job: the input path, the detected media kind, and the
operation with its options. -/
structure JobRequest where
  inputPath : SrcPath
  mediaKind : Option MediaKind
  op : Operation
deriving DecidableEq, Repr

/-- Dispatch a job request to the matching form handler. -/
def compileJob (r : JobRequest) : Except String CompiledJob :=
  match r.op with
  | .rescaleVideo w h ka pre f kab =>
    Except.ok (ResolutionVideo.handleSubmit r.inputPath w h ka pre f kab)
  | .rescaleImage w h ka q f =>
    Except.ok (ResizeImage.handleSubmit r.inputPath w h ka q f)
  | .resizeUnified w h ka f kind q pre kab =>
    Except.ok (Resize.handleSubmit r.inputPath w h ka f kind q pre kab)
  | .changeSpeed s cas mp =>
    Except.ok (Speed.handleSubmit r.mediaKind r.inputPath s cas mp)
  | .convert v =>
    Except.ok (Convert.handleSubmit r.mediaKind r.inputPath v)
  | .compress q pre =>
    Compress.handleSubmit r.mediaKind r.inputPath q pre

/-- Lift a property of compiled jobs over the error monad: it must hold of
every successfully compiled job. -/
def onOk (P : CompiledJob → Prop) : Except String CompiledJob → Prop
  | .ok j => P j
  | .error _ => True


/-- The output path differs from the input path whenever their names have
different lengths (both live in the same directory slot of the string). -/
theorem out_ne_of_len (d n b e : String) (h : n.length ≠ b.length + e.length) :
    OutPath.str ⟨d, n⟩ ≠ SrcPath.str ⟨d, b, e⟩ := by
  intro hc
  apply h
  have hl := congrArg String.length hc
  simp only [OutPath.str, SrcPath.str, String.length_append] at hl
  omega

/-- Claim C1: for every submitted job of every operation kind, the compiled
argument list begins with the input flag and input path and ends with the
overwrite flag followed by the computed output path. -/
theorem claim_c1_argv_brackets (r : JobRequest) :
    onOk (fun j => ∃ mid, j.argv = ["-i", r.inputPath.str] ++ mid ++ ["-y", j.outputPath.str])
      (compileJob r) := by
  obtain ⟨p, mk, op⟩ := r
  cases op with
  | rescaleVideo w h ka pre f kab => exact ⟨_, rfl⟩
  | rescaleImage w h ka q f => exact ⟨_, rfl⟩
  | resizeUnified w h ka f kind q pre kab => exact ⟨_, rfl⟩
  | changeSpeed s cas mp =>
    show onOk _ (Except.ok (Speed.handleSubmit mk p s cas mp))
    unfold Speed.handleSubmit
    split
    · exact ⟨_, rfl⟩
    · exact ⟨_, rfl⟩
  | convert v => exact ⟨_, rfl⟩
  | compress q pre =>
    show onOk _ (Compress.handleSubmit mk p q pre)
    unfold Compress.handleSubmit
    rcases eq_or_ne q "" with hq | hq
    · subst hq
      rcases mk with _ | k
      · exact trivial
      · cases k <;> exact ⟨_, rfl⟩
    · rw [if_pos hq]
      rcases mk with _ | k
      · exact trivial
      · cases k <;> exact ⟨_, rfl⟩

/-- Claim C9: the compiler is a pure function of the job request; equal
requests compile to identical argument vectors and output paths. -/
theorem claim_c9_pure (r s : JobRequest) (h : r = s) : compileJob r = compileJob s := by
  rw [h]

/-- Witness for claim C9 at a concrete request. -/
theorem claim_c9_witness :
    compileJob ⟨⟨"/a", "x", ".mp4"⟩, some MediaKind.video,
        Operation.convert ⟨"mp4", "libx264", "", true⟩⟩ =
      compileJob ⟨⟨"/a", "x", ".mp4"⟩, some MediaKind.video,
        Operation.convert ⟨"mp4", "libx264", "", true⟩⟩ :=
  claim_c9_pure _ _ rfl

/-- Claim C2 counterexample: a Convert job with an undetermined media kind
does not fail fast; it compiles to a complete pass-through argument list. -/
theorem claim_c2_counterexample :
    compileJob ⟨⟨"/tmp", "x", ".dat"⟩, none, Operation.convert ⟨"mp4", "", "", false⟩⟩ =
      Except.ok ⟨["-i", "/tmp/x.dat", "-y", "/tmp/x.mp4"], ⟨"/tmp", "x.mp4"⟩⟩ := by
  rfl

/-- Claim C2 (amended): only the Compress compiler fails fast on an
undetermined media kind (with the unsupported-type error, or a type error
when the preset table is consulted); the Convert compiler instead produces
a pass-through argument list with no kind-specific flags. -/
theorem claim_c2_amended :
    (∀ (p : SrcPath) (q : String) (pre : CompressionPreset),
      ∃ msg, compileJob ⟨p, none, Operation.compress q pre⟩ = Except.error msg) ∧
    (∀ (p : SrcPath) (v : Convert.FormValues),
      compileJob ⟨p, none, Operation.convert v⟩ =
        Except.ok ⟨["-i", p.str, "-y", OutPath.str ⟨p.dir, p.base ++ "." ++ v.format⟩],
          ⟨p.dir, p.base ++ "." ++ v.format⟩⟩) := by
  constructor
  · intro p q pre
    rcases eq_or_ne q "" with hq | hq
    · exact ⟨"TypeError: Cannot read properties of undefined", by subst hq; rfl⟩
    · refine ⟨"Unsupported file type", ?_⟩
      show Compress.handleSubmit none p q pre = _
      unfold Compress.handleSubmit
      rw [if_pos hq]
  · intro p v
    simp [compileJob, Convert.handleSubmit, OutPath.str]

/-- Claim C3 counterexample: a Convert job whose codec ("copy" instead of
the form default "libx264") and maximum-quality flag (true instead of the
default false) both differ from their defaults still computes an output
path equal to the input path when the target format equals the input
extension. -/
theorem claim_c3_counterexample :
    ("copy" : String) ≠ "libx264" ∧ (true ≠ false) ∧
    (Convert.handleSubmit (some MediaKind.video) ⟨"/a", "x", ".mp4"⟩
        ⟨"mp4", "copy", "", true⟩).outputPath.str =
      SrcPath.str ⟨"/a", "x", ".mp4"⟩ := by
  exact ⟨by decide, by decide, rfl⟩

/-- Claim C3 (amended): every compiled output path lies in the same
directory as the input path; for the Rescale, ChangeSpeed and Compress
operations the output path always differs from the input path, but the
Convert operation can reproduce the input path even with a non-default
option (codec copy with target format equal to the input extension). -/
theorem claim_c3_amended :
    (∀ r : JobRequest, onOk (fun j => j.outputPath.dir = r.inputPath.dir) (compileJob r)) ∧
    (∀ (p : SrcPath) (w h : String) (ka : Bool) (pre f : String) (kab : Bool),
      (ResolutionVideo.handleSubmit p w h ka pre f kab).outputPath.str ≠ p.str) ∧
    (∀ (p : SrcPath) (w h : String) (ka : Bool) (q f : String),
      (ResizeImage.handleSubmit p w h ka q f).outputPath.str ≠ p.str) ∧
    (∀ (p : SrcPath) (w h : String) (ka : Bool) (f : String) (kind : ResizeKind)
        (q : String) (pre : Option String) (kab : Bool),
      (Resize.handleSubmit p w h ka f kind q pre kab).outputPath.str ≠ p.str) ∧
    (∀ (mk : Option MediaKind) (p : SrcPath) (s : ℚ) (cas : Option ℚ) (mp : Bool),
      (Speed.handleSubmit mk p s cas mp).outputPath.str ≠ p.str) ∧
    (∀ (mk : Option MediaKind) (p : SrcPath) (q : String) (pre : CompressionPreset),
      onOk (fun j => j.outputPath.str ≠ p.str) (Compress.handleSubmit mk p q pre)) := by
  refine ⟨?_, ?_, ?_, ?_, ?_, ?_⟩
  · intro r
    obtain ⟨p, mk, op⟩ := r
    cases op with
    | rescaleVideo w h ka pre f kab => exact rfl
    | rescaleImage w h ka q f => exact rfl
    | resizeUnified w h ka f kind q pre kab => exact rfl
    | changeSpeed s cas mp =>
      show onOk _ (Except.ok (Speed.handleSubmit mk p s cas mp))
      unfold Speed.handleSubmit
      split
      · exact rfl
      · exact rfl
    | convert v => exact rfl
    | compress q pre =>
      show onOk _ (Compress.handleSubmit mk p q pre)
      unfold Compress.handleSubmit
      rcases eq_or_ne q "" with hq | hq
      · subst hq
        rcases mk with _ | k
        · exact trivial
        · cases k <;> exact rfl
      · rw [if_pos hq]
        rcases mk with _ | k
        · exact trivial
        · cases k <;> exact rfl
  · intro p w h ka pre f kab
    apply out_ne_of_len
    simp [ResolutionVideo.handleSubmit, String.length_append,
      show (".").length = 1 by decide]
    omega
  · intro p w h ka q f
    apply out_ne_of_len
    simp [ResizeImage.handleSubmit, String.length_append,
      show (".").length = 1 by decide]
    omega
  · intro p w h ka f kind q pre kab
    apply out_ne_of_len
    simp [Resize.handleSubmit, String.length_append,
      show (".").length = 1 by decide]
    omega
  · intro mk p s cas mp
    unfold Speed.handleSubmit
    split
    · apply out_ne_of_len
      simp [String.length_append, show (".").length = 1 by decide]
      omega
    · apply out_ne_of_len
      simp [String.length_append, show (".").length = 1 by decide]
      omega
  · intro mk p q pre
    unfold Compress.handleSubmit
    rcases eq_or_ne q "" with hq | hq
    · subst hq
      rcases mk with _ | k
      · exact trivial
      · cases k <;>
          (apply out_ne_of_len
           simp [String.length_append, show (".crf").length = 4 by decide,
             show (".").length = 1 by decide, show ("kbps").length = 4 by decide,
             show (".q").length = 2 by decide]
           omega)
    · rw [if_pos hq]
      rcases mk with _ | k
      · exact trivial
      · cases k <;>
          (apply out_ne_of_len
           simp [String.length_append, show (".crf").length = 4 by decide,
             show (".").length = 1 by decide, show ("kbps").length = 4 by decide,
             show (".q").length = 2 by decide]
           omega)

/-- Claim C4 counterexample: in the unified resize form, a video request
with the keep-aspect flag off and both dimensions supplied still compiles
to the aspect-maintained scale spec and width-only suffix, not the
explicit width-by-height form the claim requires. -/
theorem claim_c4_counterexample :
    (Resize.handleSubmit ⟨"/p", "img", ".png"⟩ "800" "600" false "bicubic"
        ResizeKind.video "" (some "medium") false) =
      ⟨["-i", "/p/img.png", "-vf", "scale=800:-2:flags=bicubic", "-preset", "medium",
          "-y", "/p/img.800p.png"], ⟨"/p", "img.800p.png"⟩⟩ ∧
    "scale=800:600:flags=bicubic" ∉
      (Resize.handleSubmit ⟨"/p", "img", ".png"⟩ "800" "600" false "bicubic"
        ResizeKind.video "" (some "medium") false).argv := by
  exact ⟨by decide, by decide⟩

/-- Claim C4 (amended): with the keep-aspect flag off, the standalone
resolution-video and resize-image forms pass both width and height to the
scale spec and use the width-by-height suffix, and so does the unified
resize form for an image with a height supplied; the unified resize form
for video instead always uses the aspect-maintained width-only spec. -/
theorem claim_c4_amended :
    (∀ (p : SrcPath) (w h pre f : String) (kab : Bool),
      ResolutionVideo.handleSubmit p w h false pre f kab =
        ⟨["-i", p.str] ++
          (["-vf", "scale=" ++ w ++ ":" ++ h ++ ":flags=" ++ f, "-preset", pre] ++
            (if kab then ["-c:a", "copy"] else [])) ++
          ["-y", OutPath.str ⟨p.dir, p.base ++ "." ++ (w ++ "x" ++ h) ++
            (if pre ≠ "medium" then "." ++ pre else "") ++ p.ext⟩],
         ⟨p.dir, p.base ++ "." ++ (w ++ "x" ++ h) ++
            (if pre ≠ "medium" then "." ++ pre else "") ++ p.ext⟩⟩) ∧
    (∀ (p : SrcPath) (w h q f : String),
      ResizeImage.handleSubmit p w h false q f =
        ⟨["-i", p.str] ++
          (["-vf", "scale=" ++ w ++ ":" ++ h ++ ":flags=" ++ f] ++
            (if q ≠ "" then ["-q:v", q] else [])) ++
          ["-y", OutPath.str ⟨p.dir, p.base ++ "." ++ (w ++ "x" ++ h) ++
            (if q ≠ "" then ".q" ++ q else "") ++ p.ext⟩],
         ⟨p.dir, p.base ++ "." ++ (w ++ "x" ++ h) ++
            (if q ≠ "" then ".q" ++ q else "") ++ p.ext⟩⟩) ∧
    (∀ (p : SrcPath) (w h f q : String) (pre : Option String) (kab : Bool), h ≠ "" →
      Resize.handleSubmit p w h false f ResizeKind.image q pre kab =
        ⟨["-i", p.str] ++
          (["-vf", "scale=" ++ w ++ ":" ++ h ++ ":flags=" ++ f] ++
            (if q ≠ "" then ["-q:v", q] else [])) ++
          ["-y", OutPath.str ⟨p.dir, p.base ++ "." ++ sanitizeResolution (w ++ "x" ++ h) ++
            (if q ≠ "" then ".q" ++ q else "") ++ p.ext⟩],
         ⟨p.dir, p.base ++ "." ++ sanitizeResolution (w ++ "x" ++ h) ++
            (if q ≠ "" then ".q" ++ q else "") ++ p.ext⟩⟩) ∧
    (∀ (p : SrcPath) (w h f q : String) (pre : Option String) (kab ka : Bool),
      ∃ tail, (Resize.handleSubmit p w h ka f ResizeKind.video q pre kab).argv =
        "-i" :: p.str :: "-vf" :: ("scale=" ++ w ++ ":-2:flags=" ++ f) :: tail) := by
  refine ⟨?_, ?_, ?_, ?_⟩
  · intro p w h pre f kab
    rfl
  · intro p w h q f
    rfl
  · intro p w h f q pre kab hh
    simp [Resize.handleSubmit, hh, OutPath.str]
  · intro p w h f q pre kab ka
    exact ⟨_, rfl⟩

/-- Witness for claim C4 (amended) at a concrete image request of the
unified resize form. -/
theorem claim_c4_witness :
    ("600" : String) ≠ "" ∧
    Resize.handleSubmit ⟨"/p", "img", ".png"⟩ "800" "600" false "bicubic"
        ResizeKind.image "" none false =
      ⟨["-i", "/p/img.png", "-vf", "scale=800:600:flags=bicubic",
          "-y", "/p/img.800x600.png"], ⟨"/p", "img.800x600.png"⟩⟩ :=
  ⟨by decide, claim_c4_amended.2.2.1 ⟨"/p", "img", ".png"⟩ "800" "600" "bicubic" ""
    none false (by decide)⟩

/-- Claim C5: with the keep-aspect flag on, every rescale form fixes the
width and auto-computes the height, with the even-dimension divisor -2 for
video and the plain divisor -1 for image; width 1920 with the bicubic
filter on video yields the scale spec scale=1920:-2:flags=bicubic and the
output suffix 1920p. -/
theorem claim_c5_keep_aspect :
    (∀ (p : SrcPath) (w h pre f : String) (kab : Bool),
      ResolutionVideo.handleSubmit p w h true pre f kab =
        ⟨["-i", p.str] ++
          (["-vf", "scale=" ++ w ++ ":-2:flags=" ++ f, "-preset", pre] ++
            (if kab then ["-c:a", "copy"] else [])) ++
          ["-y", OutPath.str ⟨p.dir, p.base ++ "." ++ (w ++ "p") ++
            (if pre ≠ "medium" then "." ++ pre else "") ++ p.ext⟩],
         ⟨p.dir, p.base ++ "." ++ (w ++ "p") ++
            (if pre ≠ "medium" then "." ++ pre else "") ++ p.ext⟩⟩) ∧
    (∀ (p : SrcPath) (w h q f : String),
      ResizeImage.handleSubmit p w h true q f =
        ⟨["-i", p.str] ++
          (["-vf", "scale=" ++ w ++ ":-1:flags=" ++ f] ++
            (if q ≠ "" then ["-q:v", q] else [])) ++
          ["-y", OutPath.str ⟨p.dir, p.base ++ "." ++ (w ++ "w") ++
            (if q ≠ "" then ".q" ++ q else "") ++ p.ext⟩],
         ⟨p.dir, p.base ++ "." ++ (w ++ "w") ++
            (if q ≠ "" then ".q" ++ q else "") ++ p.ext⟩⟩) ∧
    (∀ (p : SrcPath) (w h f q : String) (pre : Option String) (kab ka : Bool),
      Resize.handleSubmit p w h ka f ResizeKind.video q pre kab =
        ⟨["-i", p.str] ++
          (["-vf", "scale=" ++ w ++ ":-2:flags=" ++ f] ++
            (["-preset", pre.getD "medium"] ++
              (if kab then ["-c:a", "copy"] else []))) ++
          ["-y", OutPath.str ⟨p.dir, p.base ++ "." ++ sanitizeResolution (w ++ "p") ++
            (if pre ≠ some "medium" then "." ++ optStr pre else "") ++ p.ext⟩],
         ⟨p.dir, p.base ++ "." ++ sanitizeResolution (w ++ "p") ++
            (if pre ≠ some "medium" then "." ++ optStr pre else "") ++ p.ext⟩⟩) ∧
    (∀ (p : SrcPath) (w h f q : String) (pre : Option String) (kab : Bool),
      ∃ tail, (Resize.handleSubmit p w h true f ResizeKind.image q pre kab).argv =
        "-i" :: p.str :: "-vf" :: ("scale=" ++ w ++ ":-1:flags=" ++ f) :: tail) ∧
    ResolutionVideo.handleSubmit ⟨"/v", "clip", ".mp4"⟩ "1920" "1080" true "medium"
        "bicubic" true =
      ⟨["-i", "/v/clip.mp4", "-vf", "scale=1920:-2:flags=bicubic", "-preset", "medium",
          "-c:a", "copy", "-y", "/v/clip.1920p.mp4"], ⟨"/v", "clip.1920p.mp4"⟩⟩ := by
  refine ⟨?_, ?_, ?_, ?_, ?_⟩
  · intro p w h pre f kab
    rfl
  · intro p w h q f
    rfl
  · intro p w h f q pre kab ka
    simp [Resize.handleSubmit, OutPath.str]
  · intro p w h f q pre kab
    refine ⟨(if q ≠ "" then ["-q:v", q] else []) ++
      ["-y", (Resize.handleSubmit p w h true f ResizeKind.image q pre kab).outputPath.str], ?_⟩
    simp [Resize.handleSubmit, OutPath.str]
  · decide

/-- Claim C6: for every ChangeSpeed request on video, the output name
suffix is the speed followed by x, extended with the audio-speed marker
exactly when the audio speed differs from the video speed and with the
pitch marker exactly when maintain-pitch is set; speed 2 with
maintain-pitch resamples at 44100 times 2 and back to 44100, with suffix
2x.pitch. -/
theorem claim_c6_speed_suffix :
    (∀ (p : SrcPath) (s : ℚ) (cas : Option ℚ) (mp : Bool),
      (Speed.handleSubmit (some MediaKind.video) p s cas mp).outputPath =
        ⟨p.dir, p.base ++ "." ++
          (jsShow s ++ "x" ++
            (if cas.getD s ≠ s then ".a" ++ jsShow (cas.getD s) ++ "x" else "") ++
            (if mp then ".pitch" else "")) ++ p.ext⟩) ∧
    Speed.handleSubmit (some MediaKind.video) ⟨"/m", "v", ".mp4"⟩ 2 none true =
      ⟨["-i", "/m/v.mp4", "-filter:v", "setpts=0.5*PTS",
          "-filter:a", "asetrate=44100*2,aresample=44100,atempo=1",
          "-y", "/m/v.2x.pitch.mp4"], ⟨"/m", "v.2x.pitch.mp4"⟩⟩ := by
  constructor
  · intro p s cas mp
    rfl
  · have hq : (1 : ℚ) / 2 = (⟨1, 2, by norm_num, by norm_num⟩ : ℚ) := by
      apply Rat.ext <;> norm_num
    simp only [Speed.handleSubmit]
    rw [hq]
    decide

/-- Claim C7: in the compress form a nonempty direct quality value takes
precedence over the named preset (the result does not depend on the preset
at all), and with no direct value the preset is resolved through the fixed
table, so audio at the medium preset gets bitrate 192 and suffix 192kbps. -/
theorem claim_c7_compress_quality :
    (∀ (k : MediaKind) (p : SrcPath) (q : String) (pre1 pre2 : CompressionPreset),
      q ≠ "" →
      Compress.handleSubmit (some k) p q pre1 = Compress.handleSubmit (some k) p q pre2) ∧
    (∀ (p : SrcPath) (q : String) (pre : CompressionPreset), q ≠ "" →
      Compress.handleSubmit (some MediaKind.audio) p q pre =
        Except.ok ⟨["-i", p.str] ++ ["-b:a", q ++ "k"] ++
            ["-y", OutPath.str ⟨p.dir, p.base ++ "." ++ q ++ "kbps" ++ p.ext⟩],
          ⟨p.dir, p.base ++ "." ++ q ++ "kbps" ++ p.ext⟩⟩) ∧
    (∀ p : SrcPath,
      Compress.handleSubmit (some MediaKind.audio) p "" CompressionPreset.medium =
        Except.ok ⟨["-i", p.str] ++ ["-b:a", "192" ++ "k"] ++
            ["-y", OutPath.str ⟨p.dir, p.base ++ "." ++ "192" ++ "kbps" ++ p.ext⟩],
          ⟨p.dir, p.base ++ "." ++ "192" ++ "kbps" ++ p.ext⟩⟩) := by
  refine ⟨?_, ?_, ?_⟩
  · intro k p q pre1 pre2 hq
    unfold Compress.handleSubmit
    simp only [if_pos hq]
  · intro p q pre hq
    unfold Compress.handleSubmit
    rw [if_pos hq]
  · intro p
    rfl

/-- Witness for claim C7 at a concrete nonempty direct quality value. -/
theorem claim_c7_witness :
    ("5" : String) ≠ "" ∧
    Compress.handleSubmit (some MediaKind.audio) ⟨"/a", "song", ".mp3"⟩ "5"
        CompressionPreset.low =
      Compress.handleSubmit (some MediaKind.audio) ⟨"/a", "song", ".mp3"⟩ "5"
        CompressionPreset.high :=
  ⟨by decide, claim_c7_compress_quality.1 MediaKind.audio ⟨"/a", "song", ".mp3"⟩ "5"
    CompressionPreset.low CompressionPreset.high (by decide)⟩

/-- Claim C8: converting video with codec libx264 and maximum quality set
produces the lossless constant-rate-factor-0 arguments with the veryslow
preset and the suffix .libx264.lossless before the target extension. -/
theorem claim_c8_lossless_x264 (p : SrcPath) (format q : String) :
    Convert.handleSubmit (some MediaKind.video) p ⟨format, "libx264", q, true⟩ =
      ⟨["-i", p.str] ++
          (["-c:v", "libx264"] ++ ["-crf", "0", "-preset", "veryslow"] ++ ["-c:a", "copy"]) ++
          ["-y", OutPath.str ⟨p.dir, p.base ++ ".libx264.lossless" ++ "." ++ format⟩],
        ⟨p.dir, p.base ++ ".libx264.lossless" ++ "." ++ format⟩⟩ := by
  rfl

/-- Claim C10: in the unified resize form the resolution token embedded in
the output filename is sanitized to contain only ASCII letters, digits,
dots and hyphens, and the output name is assembled from the sanitized
token. -/
theorem claim_c10_sanitized :
    (∀ (s : String) (c : Char), c ∈ (sanitizeResolution s).data → isSafeChar c = true) ∧
    (∀ (p : SrcPath) (w h : String) (ka : Bool) (f : String) (kind : ResizeKind)
        (q : String) (pre : Option String) (kab : Bool),
      ∃ reso rest, (Resize.handleSubmit p w h ka f kind q pre kab).outputPath.name =
        p.base ++ "." ++ sanitizeResolution reso ++ rest) := by
  constructor
  · intro s c hc
    exact List.of_mem_filter hc
  · intro p w h ka f kind q pre kab
    cases kind with
    | image =>
      rcases Classical.em (¬ h = "" ∧ ka = false) with hc | hc
      · refine ⟨w ++ "x" ++ h, (if q ≠ "" then ".q" ++ q else "") ++ p.ext, ?_⟩
        simp [Resize.handleSubmit, hc.1, hc.2, String.append_assoc]
      · refine ⟨w ++ "w", (if q ≠ "" then ".q" ++ q else "") ++ p.ext, ?_⟩
        simp [Resize.handleSubmit, hc, String.append_assoc]
    | video =>
      refine ⟨w ++ "p",
        (if pre ≠ some "medium" then "." ++ optStr pre else "") ++ p.ext, ?_⟩
      simp [Resize.handleSubmit, String.append_assoc]

/-- Witness for claim C10 at a concrete sanitized character. -/
theorem claim_c10_witness :
    ('8' ∈ (sanitizeResolution "8*0 p").data) ∧ isSafeChar '8' = true :=
  ⟨by decide, claim_c10_sanitized.1 "8*0 p" '8' (by decide)⟩
